import Mathlib

/-!
Shallow embedding of `src/oauth.py` (a FastAPI user-registration and
token-issuance service backed by a MongoDB collection of user documents).

Modelling conventions:
* The MongoDB users collection is a `List UserInDB`; `find_one {"email": e}`
  is the first list element whose `email` equals `e`; `insert_one` appends.
* Time is a `Nat` of unix seconds; `timedelta(minutes=m)` is `m * 60`.
* A JWT is embedded structurally: the encoded token records its claims
  (`sub`, `exp`), the key it was signed with and the algorithm name, plus a
  `malformed` constructor for strings that are not well-formed JWTs at all.
  `jose.jwt.decode` succeeds iff the token is well formed, the key and
  algorithm match, and the `exp` claim is not in the past.
* Python truthiness matters: `get_user` returns the user document or the
  Python value `False` (never `None`), which the embedding keeps distinct;
  and `if expires_delta:` in `create_access_token` is falsy for both `None`
  and `timedelta(0)`, so a zero delta takes the 15-minute default branch.
-/

namespace OauthPy

/-- Pydantic model `UserInDB`: one document of the users collection. -/
structure UserInDB where
  email : String
  hashed_password : String
  disabled : Bool
deriving DecidableEq, Repr

/-- Pydantic model `UserCreate`: the body of `POST /register/`. -/
structure UserCreate where
  email : String
  password : String
deriving DecidableEq, Repr

/-- The users collection (`db[MONGODB_COLLECTION_NAME]`). -/
abbrev Store := List UserInDB

/-- Environment-sourced configuration (`config.env_config`), external to the
core: token signing secret, signing algorithm, token expiry minutes. -/
structure Config where
  SECRET_KEY : String
  ALGORITHM : String
  ACCESS_TOKEN_EXPIRE_MINUTES : Nat
deriving DecidableEq, Repr

/-- Modelled from the spec: `utils.pwd_context` is not under `src/`.
`hash_password(plaintext) → hash` is a one-way hash; the model tags the
plaintext so that `verify_password` (the scheme's own verify routine)
succeeds exactly on the hashing password. -/
def get_password_hash (plaintext : String) : String :=
  "$hash$" ++ plaintext

/-- Modelled from the spec: `utils.pwd_context.verify_password(plaintext,
hash)` checks the plaintext against the stored hash. -/
def verify_password (plaintext hash : String) : Bool :=
  hash == get_password_hash plaintext

/-- Result of `find_one({"email": email})`: first matching document, if any. -/
def find_one (store : Store) (email : String) : Option UserInDB :=
  store.find? (fun u => u.email == email)

/-- Python return value of `get_user`: either the user document (truthy) or
the Python constant `False`.  Note it never returns `None`. -/
inductive PyUser where
  | found (u : UserInDB)
  | pyFalse
deriving DecidableEq, Repr

/-- Function `get_user(email)`: `find_one` on the collection, returning the document
when present and Python `False` otherwise. -/
def get_user (store : Store) (email : String) : PyUser :=
  match find_one store email with
  | some u => .found u
  | none => .pyFalse

/-- An `HTTPException` as raised by the handlers: status code, detail string,
and whether the `WWW-Authenticate: Bearer` challenge header is attached. -/
structure HTTPExc where
  status_code : Nat
  detail : String
  www_authenticate_bearer : Bool
deriving DecidableEq, Repr

/-- The shared 401 of `get_current_user` / `login_for_access_token`. -/
def credentials_exception : HTTPExc :=
  ⟨401, "Could not validate credentials", true⟩

/-- JWT claims used by this service: optional `sub` and the `exp` timestamp
(unix seconds). -/
structure JWTPayload where
  sub : Option String
  exp : Nat
deriving DecidableEq, Repr

/-- A bearer-token string, embedded structurally: either a well-formed JWT
carrying its claims, signing key and algorithm, or a malformed string. -/
inductive Token where
  | jwt (payload : JWTPayload) (key : String) (alg : String)
  | malformed (raw : String)
deriving DecidableEq, Repr

/-- Failure modes of `jose.jwt.decode` (all subclasses of `JWTError`). -/
inductive JWTError where
  | decodeError
  | signatureError
  | expiredSignature
deriving DecidableEq, Repr

/-- Decoding `jose.jwt.decode(token, key, algorithms=[alg])` evaluated at time `now`:
fails on malformed input, wrong key, wrong algorithm, or an `exp` claim in
the past; otherwise yields the claims. -/
def jwt_decode (token : Token) (key alg : String) (now : Nat) :
    Except JWTError JWTPayload :=
  match token with
  | .malformed _ => .error .decodeError
  | .jwt payload tkey talg =>
    if talg ≠ alg then .error .decodeError
    else if tkey ≠ key then .error .signatureError
    else if payload.exp < now then .error .expiredSignature
    else .ok payload

/-- Encoding `jwt.encode(to_encode, SECRET_KEY, algorithm=ALGORITHM)`. -/
def jwt_encode (payload : JWTPayload) (key alg : String) : Token :=
  .jwt payload key alg

/-- Expiry computed by `create_access_token`'s `if expires_delta:` branch.
Python truthiness: both `None` and `timedelta(0)` are falsy, so each falls
through to the `timedelta(minutes=15)` default; only a nonzero delta is
used as given. -/
def minted_expiry (expires_delta : Option Nat) (now : Nat) : Nat :=
  match expires_delta with
  | some delta => if delta != 0 then now + delta else now + 15 * 60
  | none => now + 15 * 60

/-- Function `create_access_token(data, expires_delta)` at current time `now`:
expiry is `now + expires_delta` when a truthy delta is supplied and
`now + timedelta(minutes=15)` otherwise (see `minted_expiry`); the claims
are signed with the server secret.  `data_sub` is the `"sub"` entry of the
`data` dict. -/
def create_access_token (cfg : Config) (data_sub : Option String)
    (expires_delta : Option Nat) (now : Nat) : Token :=
  let expire := minted_expiry expires_delta now
  jwt_encode ⟨data_sub, expire⟩ cfg.SECRET_KEY cfg.ALGORITHM

/-- What `get_current_user` produces: the user document, the Python value
`False` (when `get_user` returned `False`, which the `is None` test does not
catch), or a raised `HTTPException`. -/
inductive CurrentUser where
  | user (u : UserInDB)
  | pyFalse
  | exc (e : HTTPExc)
deriving DecidableEq, Repr

/-- Dependency `get_current_user(token)` at time `now`: decodes the token, rejects a
missing `sub` claim or any `JWTError` with the 401 `credentials_exception`,
then looks the subject up.  `get_user` returns Python `False` (never `None`)
for a missing user, so the `if user is None` guard does not fire and the
value `False` is returned as the current user. -/
def get_current_user (cfg : Config) (store : Store) (token : Token)
    (now : Nat) : CurrentUser :=
  match jwt_decode token cfg.SECRET_KEY cfg.ALGORITHM now with
  | .error _ => .exc credentials_exception
  | .ok payload =>
    match payload.sub with
    | none => .exc credentials_exception
    | some email =>
      match get_user store email with
      | .found u => .user u
      | .pyFalse => .pyFalse

/-- Outcome of `get_current_active_user` (and of endpoints behind it): a
value, a raised `HTTPException`, or an unhandled Python `TypeError`
(subscripting the bool `False`), which the framework turns into a 500. -/
inductive ActiveUser where
  | user (u : UserInDB)
  | exc (e : HTTPExc)
  | typeError
deriving DecidableEq, Repr

/-- Dependency `get_current_active_user(current_user)`: evaluates
`current_user['disabled']` — a `TypeError` when `current_user` is the bool
`False` — and raises 400 "Inactive user" when the flag is set. -/
def get_current_active_user (current_user : CurrentUser) : ActiveUser :=
  match current_user with
  | .exc e => .exc e
  | .pyFalse => .typeError
  | .user u => if u.disabled then .exc ⟨400, "Inactive user", false⟩ else .user u

/-- JSON-ish response of `GET /users/me`: the success body
`[{"owner": email}]` as a list of one-field objects, an error response, or a
500 from an unhandled exception. -/
inductive UsersMeResponse where
  | ok (body : List (String × String))
  | exc (e : HTTPExc)
  | serverError
deriving DecidableEq, Repr

/-- Endpoint `GET /users/me` (`read_own_info`): the dependency chain
`get_current_user` → `get_current_active_user`, then `[{"owner": email}]`. -/
def read_own_info (cfg : Config) (store : Store) (token : Token)
    (now : Nat) : UsersMeResponse :=
  match get_current_active_user (get_current_user cfg store token now) with
  | .exc e => .exc e
  | .typeError => .serverError
  | .user u => .ok [("owner", u.email)]

/-- Function `create_user(db, user)` (behind `POST /register/`): raises 400 when a
user with the email exists; otherwise hashes the password and `insert_one`s
`UserInDB(email, hashed_password, disabled=False)`, answering
"Registration successful".  The success value carries the updated
collection; on the raise nothing has been inserted. -/
def create_user (store : Store) (user : UserCreate) :
    Except HTTPExc (Store × String) :=
  match get_user store user.email with
  | .found _ => .error ⟨400, "E-mail already exists", false⟩
  | .pyFalse =>
    let hashed_password := get_password_hash user.password
    let new_user : UserInDB := ⟨user.email, hashed_password, false⟩
    .ok (store ++ [new_user], "Registration successful")

/-- Function `authenticate_user(email, password)`: Python `False` when the user is
absent, Python `False` again when the password does not verify against the
stored hash, the user document otherwise. -/
def authenticate_user (store : Store) (email password : String) : PyUser :=
  match get_user store email with
  | .pyFalse => .pyFalse
  | .found u =>
    if ¬ verify_password password u.hashed_password then .pyFalse
    else .found u

/-- Response of `POST /token` (`login_for_access_token`): the token body or
a raised `HTTPException`. -/
inductive TokenResponse where
  | ok (access_token : Token) (token_type : String)
  | exc (e : HTTPExc)
deriving DecidableEq, Repr

/-- Endpoint `POST /token`: authenticates the form credentials, raising a 401 with
the Bearer challenge on failure; on success mints an access token for the
user's email with `expires_delta = timedelta(minutes=ACCESS_TOKEN_EXPIRE_MINUTES)`. -/
def login_for_access_token (cfg : Config) (store : Store)
    (username password : String) (now : Nat) : TokenResponse :=
  match authenticate_user store username password with
  | .pyFalse => .exc ⟨401, "Incorrect username or password", true⟩
  | .found user =>
    let access_token_expires := cfg.ACCESS_TOKEN_EXPIRE_MINUTES * 60
    let access_token :=
      create_access_token cfg (some user.email) (some access_token_expires) now
    .ok access_token "bearer"

/-- The state-changing surface of the service, for the uniqueness invariant:
`POST /register/` is the only operation that writes to the collection; the
remaining endpoints only read. -/
inductive Op where
  | register (user : UserCreate)
  | check_email (email : String)
  | login (username password : String) (now : Nat)
  | users_me (token : Token) (now : Nat)
  | health_check
deriving DecidableEq, Repr

/-- Effect of one sequentially executed operation on the collection. -/
def applyOp (store : Store) : Op → Store
  | .register user =>
    match create_user store user with
    | .ok (store2, _) => store2
    | .error _ => store
  | _ => store

/-- Effect of a sequence of operations, executed one after the other. -/
def applyOps (store : Store) : List Op → Store
  | [] => store
  | op :: ops => applyOps (applyOp store op) ops

/-- Email is unique across stored user documents. -/
def uniqueEmails (store : Store) : Prop :=
  store.Pairwise (fun a b => a.email ≠ b.email)

instance : DecidablePred uniqueEmails := fun store =>
  List.instDecidablePairwise store

/-! ### Helper lemmas -/

/-- Lookup `get_user` answers `False` exactly when no stored user has the email. -/
theorem get_user_pyFalse_iff (store : Store) (email : String) :
    get_user store email = .pyFalse ↔ ∀ u ∈ store, u.email ≠ email := by
  unfold get_user find_one
  constructor
  · intro h u hu
    cases hfind : store.find? (fun v => v.email == email) with
    | none =>
      intro hEq
      have := List.find?_eq_none.mp hfind u hu
      simp [hEq] at this
    | some v => simp [hfind] at h
  · intro h
    cases hfind : store.find? (fun v => v.email == email) with
    | none => simp [hfind]
    | some v =>
      exfalso
      have hv := List.find?_some hfind
      have hmem := List.mem_of_find?_eq_some hfind
      exact h v hmem (by simpa using hv)

/-- Lookup `get_user` answers a user exactly when `find_one` locates it. -/
theorem get_user_found_iff (store : Store) (email : String) (u : UserInDB) :
    get_user store email = .found u ↔ find_one store email = some u := by
  unfold get_user
  cases hfind : find_one store email <;> simp

/-- A found user is a stored user with the looked-up email. -/
theorem get_user_found_mem (store : Store) (email : String) (u : UserInDB)
    (h : get_user store email = .found u) : u ∈ store ∧ u.email = email := by
  have hfind : find_one store email = some u :=
    (get_user_found_iff store email u).mp h
  unfold find_one at hfind
  refine ⟨List.mem_of_find?_eq_some hfind, ?_⟩
  have := List.find?_some hfind
  simpa using this

/-! ### Claim theorems -/

/-- Claim C2: for every store and `(email, password)`, `create_user` fails
with the 400 duplicate-email error when a user with that email already
exists (so a second registration of the same email fails), and otherwise
succeeds, appending exactly one record with that email, the hash of the
given password, and `disabled = false`. -/
theorem register_duplicate_or_insert (store : Store) (user : UserCreate) :
    ((∃ u ∈ store, u.email = user.email) →
      create_user store user = .error ⟨400, "E-mail already exists", false⟩) ∧
    ((¬ ∃ u ∈ store, u.email = user.email) →
      create_user store user =
        .ok (store ++ [⟨user.email, get_password_hash user.password, false⟩],
          "Registration successful")) := by
  constructor
  · rintro ⟨u, hu, hEq⟩
    unfold create_user
    cases hget : get_user store user.email with
    | pyFalse =>
      exact absurd hEq ((get_user_pyFalse_iff store user.email).mp hget u hu)
    | found v => rfl
  · intro hNone
    unfold create_user
    cases hget : get_user store user.email with
    | pyFalse => rfl
    | found v =>
      obtain ⟨hmem, hEq⟩ := get_user_found_mem store user.email v hget
      exact absurd ⟨v, hmem, hEq⟩ hNone

/-- Witness for C2: registering `b@x.com` into a store already holding
`a@x.com` succeeds and inserts the hashed record; re-registering `a@x.com`
then fails with the 400 duplicate-email error. -/
theorem register_duplicate_or_insert_witness :
    create_user [⟨"a@x.com", "$hash$pw1", false⟩] ⟨"a@x.com", "pw2"⟩ =
      .error ⟨400, "E-mail already exists", false⟩ ∧
    create_user [⟨"a@x.com", "$hash$pw1", false⟩] ⟨"b@x.com", "pw3"⟩ =
      .ok ([⟨"a@x.com", "$hash$pw1", false⟩,
            ⟨"b@x.com", get_password_hash "pw3", false⟩],
        "Registration successful") :=
  ⟨(register_duplicate_or_insert [⟨"a@x.com", "$hash$pw1", false⟩]
      ⟨"a@x.com", "pw2"⟩).1 ⟨⟨"a@x.com", "$hash$pw1", false⟩, by simp, rfl⟩,
   (register_duplicate_or_insert [⟨"a@x.com", "$hash$pw1", false⟩]
      ⟨"b@x.com", "pw3"⟩).2 (by simp)⟩

/-- Claim C3: `authenticate_user` returns the stored user iff the email is
present and the stored hash verifies the password; when the email is absent
and when the password mismatches it returns the exact same value (Python
`False`), so the two failure causes are indistinguishable. -/
theorem authenticate_iff_and_same_failure (store : Store)
    (email password : String) :
    (∀ u, authenticate_user store email password = .found u ↔
      get_user store email = .found u ∧
        verify_password password u.hashed_password = true) ∧
    (get_user store email = .pyFalse →
      authenticate_user store email password = .pyFalse) ∧
    (∀ u, get_user store email = .found u →
      verify_password password u.hashed_password = false →
      authenticate_user store email password = .pyFalse) := by
  refine ⟨?_, ?_, ?_⟩
  · intro u
    unfold authenticate_user
    cases hget : get_user store email with
    | pyFalse => simp
    | found v =>
      by_cases hv : verify_password password v.hashed_password
      · simp only [hv]
        constructor
        · intro h
          simp at h
          subst h
          exact ⟨rfl, hv⟩
        · rintro ⟨hu, _⟩
          simp at hu
          subst hu
          simp
      · simp only [eq_false_of_ne_true hv]
        constructor
        · intro h
          simp at h
        · rintro ⟨hu, hverify⟩
          simp at hu
          subst hu
          exact absurd hverify hv
  · intro hget
    unfold authenticate_user
    rw [hget]
  · intro u hget hverify
    unfold authenticate_user
    rw [hget]
    simp [hverify]

/-- Witness for C3: with one stored user `a@x.com` hashed from `pw1`, the
correct password authenticates, a wrong password yields `False`, and a
missing email yields the same `False`. -/
theorem authenticate_iff_and_same_failure_witness :
    authenticate_user [⟨"a@x.com", "$hash$pw1", false⟩] "a@x.com" "pw1" =
      .found ⟨"a@x.com", "$hash$pw1", false⟩ ∧
    authenticate_user [⟨"a@x.com", "$hash$pw1", false⟩] "a@x.com" "bad" =
      .pyFalse ∧
    authenticate_user [⟨"a@x.com", "$hash$pw1", false⟩] "ghost@x.com" "pw1" =
      .pyFalse :=
  ⟨((authenticate_iff_and_same_failure [⟨"a@x.com", "$hash$pw1", false⟩]
      "a@x.com" "pw1").1 ⟨"a@x.com", "$hash$pw1", false⟩).mpr
      ⟨by decide, by decide⟩,
   (authenticate_iff_and_same_failure [⟨"a@x.com", "$hash$pw1", false⟩]
      "a@x.com" "bad").2.2 ⟨"a@x.com", "$hash$pw1", false⟩ (by decide)
      (by decide),
   (authenticate_iff_and_same_failure [⟨"a@x.com", "$hash$pw1", false⟩]
      "ghost@x.com" "pw1").2.1 (by decide)⟩

/-- Claim C10: when the email already exists, `create_user` raises the
duplicate-email `HTTPException` before reaching `insert_one`, so the
collection is exactly unchanged whenever registration fails. -/
theorem register_failure_leaves_store_unchanged (store : Store)
    (user : UserCreate) (h : ∃ u ∈ store, u.email = user.email) :
    create_user store user = .error ⟨400, "E-mail already exists", false⟩ ∧
    applyOp store (.register user) = store := by
  obtain ⟨u, hu, hEq⟩ := h
  have herr : create_user store user =
      .error ⟨400, "E-mail already exists", false⟩ := by
    unfold create_user
    cases hget : get_user store user.email with
    | pyFalse =>
      exact absurd hEq ((get_user_pyFalse_iff store user.email).mp hget u hu)
    | found v => rfl
  exact ⟨herr, by simp [applyOp, herr]⟩

/-- Witness for C10: re-registering the already-present `a@x.com` raises the
400 and leaves the one-user collection as it was. -/
theorem register_failure_leaves_store_unchanged_witness :
    create_user [⟨"a@x.com", "$hash$pw1", false⟩] ⟨"a@x.com", "pw9"⟩ =
      .error ⟨400, "E-mail already exists", false⟩ ∧
    applyOp [⟨"a@x.com", "$hash$pw1", false⟩]
        (.register ⟨"a@x.com", "pw9"⟩) =
      [⟨"a@x.com", "$hash$pw1", false⟩] :=
  register_failure_leaves_store_unchanged [⟨"a@x.com", "$hash$pw1", false⟩]
    ⟨"a@x.com", "pw9"⟩ ⟨⟨"a@x.com", "$hash$pw1", false⟩, by simp, rfl⟩

/-- One operation preserves email uniqueness: only `register` writes, and it
inserts only after `get_user` reports the email absent. -/
theorem applyOp_preserves_uniqueEmails (store : Store) (op : Op)
    (h : uniqueEmails store) : uniqueEmails (applyOp store op) := by
  cases op with
  | register user =>
    cases hc : create_user store user with
    | error e => simpa [applyOp, hc] using h
    | ok res =>
      obtain ⟨store2, msg⟩ := res
      have hc2 := hc
      unfold create_user at hc2
      cases hget : get_user store user.email with
      | found v => rw [hget] at hc2; exact absurd hc2 (by simp)
      | pyFalse =>
        rw [hget] at hc2
        simp only [Except.ok.injEq, Prod.mk.injEq] at hc2
        obtain ⟨hstore2, -⟩ := hc2
        have habsent := (get_user_pyFalse_iff store user.email).mp hget
        simp only [applyOp, hc]
        rw [← hstore2]
        unfold uniqueEmails at h ⊢
        rw [List.pairwise_append]
        refine ⟨h, List.pairwise_singleton _ _, ?_⟩
        intro a ha b hb
        simp only [List.mem_singleton] at hb
        subst hb
        simp only [ne_eq]
        intro hEq
        exact habsent a ha hEq
  | check_email email => exact h
  | login username password now => exact h
  | users_me token now => exact h
  | health_check => exact h

/-- Claim C9: under sequential execution starting from a store with unique
emails, every reachable store keeps emails unique — `register` is the only
inserting operation and it performs a pre-insert existence check. -/
theorem sequential_ops_preserve_uniqueEmails (store : Store) (ops : List Op)
    (h : uniqueEmails store) : uniqueEmails (applyOps store ops) := by
  induction ops generalizing store with
  | nil => exact h
  | cons op ops ih =>
    unfold applyOps
    exact ih (applyOp store op) (applyOp_preserves_uniqueEmails store op h)

/-- Witness for C9: from the empty store, registering `a@x.com`, retrying
it, and registering `b@x.com` reaches a store whose emails are unique. -/
theorem sequential_ops_preserve_uniqueEmails_witness :
    uniqueEmails (applyOps []
      [.register ⟨"a@x.com", "pw1"⟩, .register ⟨"a@x.com", "pw2"⟩,
       .register ⟨"b@x.com", "pw3"⟩]) :=
  sequential_ops_preserve_uniqueEmails []
    [.register ⟨"a@x.com", "pw1"⟩, .register ⟨"a@x.com", "pw2"⟩,
     .register ⟨"b@x.com", "pw3"⟩] (by simp [uniqueEmails])

/-- Claim C4: round-trip — a token minted by `create_access_token` for an
email under the server secret, checked while not yet expired, is accepted by
the decode step and its subject claim is exactly that email. -/
theorem mint_verify_round_trip (cfg : Config) (email : String)
    (expires_delta : Option Nat) (now checkTime : Nat)
    (h : checkTime ≤ minted_expiry expires_delta now) :
    jwt_decode (create_access_token cfg (some email) expires_delta now)
        cfg.SECRET_KEY cfg.ALGORITHM checkTime =
      .ok ⟨some email, minted_expiry expires_delta now⟩ := by
  unfold create_access_token jwt_encode jwt_decode
  simp [Nat.not_lt.mpr h]

/-- Witness for C4: a token minted at time 0 with the default ttl decodes at
time 100 to subject `a@x.com`; one minted with the falsy `timedelta(0)`
likewise carries the default 15-minute expiry and decodes at time 100. -/
theorem mint_verify_round_trip_witness :
    jwt_decode
        (create_access_token ⟨"server-secret", "HS256", 30⟩ (some "a@x.com")
          none 0)
        "server-secret" "HS256" 100 =
      .ok ⟨some "a@x.com", 900⟩ ∧
    jwt_decode
        (create_access_token ⟨"server-secret", "HS256", 30⟩ (some "a@x.com")
          (some 0) 0)
        "server-secret" "HS256" 100 =
      .ok ⟨some "a@x.com", 900⟩ :=
  ⟨mint_verify_round_trip ⟨"server-secret", "HS256", 30⟩ "a@x.com" none 0 100
    (by decide),
   mint_verify_round_trip ⟨"server-secret", "HS256", 30⟩ "a@x.com" (some 0) 0
    100 (by decide)⟩

/-- Claim C5: a token minted at time `t` with ttl 15 minutes carries expiry
`t + 15` minutes; the decode step accepts it at `t + 14` minutes and rejects
it as expired at `t + 16` minutes. -/
theorem token_expiry_window (cfg : Config) (email : String) (t : Nat) :
    jwt_decode (create_access_token cfg (some email) (some (15 * 60)) t)
        cfg.SECRET_KEY cfg.ALGORITHM (t + 14 * 60) =
      .ok ⟨some email, t + 15 * 60⟩ ∧
    jwt_decode (create_access_token cfg (some email) (some (15 * 60)) t)
        cfg.SECRET_KEY cfg.ALGORITHM (t + 16 * 60) =
      .error .expiredSignature := by
  unfold create_access_token minted_expiry jwt_encode jwt_decode
  constructor <;> simp

/-- Counterexample for C7 as stated: with `ACCESS_TOKEN_EXPIRE_MINUTES = 0`
the login flow passes the falsy `timedelta(0)`, so the minted token expires
15 minutes after the mint (exp = 900), not at the configured
`now + 0 * 60 = 0`. -/
theorem mint_token_ttl_config_zero_cx :
    login_for_access_token ⟨"server-secret", "HS256", 0⟩
        [⟨"a@x.com", "$hash$pw1", false⟩] "a@x.com" "pw1" 0 =
      .ok (.jwt ⟨some "a@x.com", 900⟩ "server-secret" "HS256") "bearer" ∧
    login_for_access_token ⟨"server-secret", "HS256", 0⟩
        [⟨"a@x.com", "$hash$pw1", false⟩] "a@x.com" "pw1" 0 ≠
      .ok (.jwt ⟨some "a@x.com", 0 + 0 * 60⟩ "server-secret" "HS256")
        "bearer" := by
  constructor <;> decide

/-- Claim C7 (amended): with no `expires_delta`, `create_access_token` sets
expiry to 15 minutes after the current time; the login flow (`POST /token`)
mints the token with `expires_delta = ACCESS_TOKEN_EXPIRE_MINUTES` minutes,
so a successful login returns a bearer token expiring that much later when
the configured value is nonzero, and — `timedelta(0)` being falsy — one
expiring 15 minutes later when the configured value is zero. -/
theorem mint_token_ttl_defaults (cfg : Config) (data_sub : Option String)
    (now : Nat) (store : Store) (username password : String) (u : UserInDB)
    (h : authenticate_user store username password = .found u) :
    create_access_token cfg data_sub none now =
      .jwt ⟨data_sub, now + 15 * 60⟩ cfg.SECRET_KEY cfg.ALGORITHM ∧
    (cfg.ACCESS_TOKEN_EXPIRE_MINUTES ≠ 0 →
      login_for_access_token cfg store username password now =
        .ok (.jwt ⟨some u.email, now + cfg.ACCESS_TOKEN_EXPIRE_MINUTES * 60⟩
            cfg.SECRET_KEY cfg.ALGORITHM) "bearer") ∧
    (cfg.ACCESS_TOKEN_EXPIRE_MINUTES = 0 →
      login_for_access_token cfg store username password now =
        .ok (.jwt ⟨some u.email, now + 15 * 60⟩ cfg.SECRET_KEY
            cfg.ALGORITHM) "bearer") := by
  refine ⟨?_, ?_, ?_⟩
  · unfold create_access_token minted_expiry jwt_encode
    rfl
  · intro hm
    have h60 : cfg.ACCESS_TOKEN_EXPIRE_MINUTES * 60 ≠ 0 :=
      fun h0 => hm (by omega)
    unfold login_for_access_token
    rw [h]
    simp [create_access_token, minted_expiry, jwt_encode, h60]
  · intro hm
    unfold login_for_access_token
    rw [h]
    simp [create_access_token, minted_expiry, jwt_encode, hm]

/-- Witness for C7: logging in as `a@x.com` with the right password and a
30-minute configuration at time 1000 yields a token expiring at 2800; with
a 0-minute configuration it yields one expiring at 1900; the default mint
at time 1000 also expires at 1900. -/
theorem mint_token_ttl_defaults_witness :
    create_access_token ⟨"server-secret", "HS256", 30⟩ (some "a@x.com")
        none 1000 =
      .jwt ⟨some "a@x.com", 1900⟩ "server-secret" "HS256" ∧
    login_for_access_token ⟨"server-secret", "HS256", 30⟩
        [⟨"a@x.com", "$hash$pw1", false⟩] "a@x.com" "pw1" 1000 =
      .ok (.jwt ⟨some "a@x.com", 2800⟩ "server-secret" "HS256") "bearer" ∧
    login_for_access_token ⟨"server-secret", "HS256", 0⟩
        [⟨"a@x.com", "$hash$pw1", false⟩] "a@x.com" "pw1" 1000 =
      .ok (.jwt ⟨some "a@x.com", 1900⟩ "server-secret" "HS256") "bearer" :=
  ⟨(mint_token_ttl_defaults ⟨"server-secret", "HS256", 30⟩ (some "a@x.com")
      1000 [⟨"a@x.com", "$hash$pw1", false⟩] "a@x.com" "pw1"
      ⟨"a@x.com", "$hash$pw1", false⟩ (by decide)).1,
   (mint_token_ttl_defaults ⟨"server-secret", "HS256", 30⟩ (some "a@x.com")
      1000 [⟨"a@x.com", "$hash$pw1", false⟩] "a@x.com" "pw1"
      ⟨"a@x.com", "$hash$pw1", false⟩ (by decide)).2.1 (by decide),
   (mint_token_ttl_defaults ⟨"server-secret", "HS256", 0⟩ (some "a@x.com")
      1000 [⟨"a@x.com", "$hash$pw1", false⟩] "a@x.com" "pw1"
      ⟨"a@x.com", "$hash$pw1", false⟩ (by decide)).2.2 rfl⟩

/-- Claim C6: for every token, when decoding fails (malformed token, wrong
key, wrong algorithm, or expired) or the decoded payload has no `sub` claim,
`get_current_user` raises the `credentials_exception`: HTTP 401 with the
`WWW-Authenticate: Bearer` challenge header. -/
theorem invalid_token_401_challenge (cfg : Config) (store : Store)
    (token : Token) (now : Nat)
    (h : (∃ e, jwt_decode token cfg.SECRET_KEY cfg.ALGORITHM now = .error e) ∨
      (∃ p, jwt_decode token cfg.SECRET_KEY cfg.ALGORITHM now = .ok p ∧
        p.sub = none)) :
    get_current_user cfg store token now = .exc credentials_exception ∧
    credentials_exception.status_code = 401 ∧
    credentials_exception.www_authenticate_bearer = true := by
  refine ⟨?_, rfl, rfl⟩
  rcases h with ⟨e, he⟩ | ⟨p, hp, hsub⟩
  · simp [get_current_user, he]
  · simp [get_current_user, hp, hsub]

/-- Witness for C6: a malformed token string is rejected by `GET /users/me`
with the 401 `credentials_exception`. -/
theorem invalid_token_401_challenge_witness :
    get_current_user ⟨"server-secret", "HS256", 30⟩ [] (.malformed "junk")
        0 = .exc credentials_exception ∧
    credentials_exception.status_code = 401 ∧
    credentials_exception.www_authenticate_bearer = true :=
  invalid_token_401_challenge ⟨"server-secret", "HS256", 30⟩ []
    (.malformed "junk") 0 (.inl ⟨.decodeError, rfl⟩)

/-- Claim C8: for a user produced by `get_current_user`,
`get_current_active_user` raises 400 "Inactive user" when the `disabled`
flag is set and returns the user unchanged otherwise, in which case
`GET /users/me` answers 200 with exactly `[{"owner": email}]`. -/
theorem require_active_guard (cfg : Config) (store : Store) (token : Token)
    (now : Nat) (u : UserInDB)
    (h : get_current_user cfg store token now = .user u) :
    (u.disabled = true →
      get_current_active_user (.user u) = .exc ⟨400, "Inactive user", false⟩ ∧
      read_own_info cfg store token now = .exc ⟨400, "Inactive user", false⟩) ∧
    (u.disabled = false →
      get_current_active_user (.user u) = .user u ∧
      read_own_info cfg store token now = .ok [("owner", u.email)]) := by
  constructor
  · intro hd
    have hg : get_current_active_user (.user u) =
        .exc ⟨400, "Inactive user", false⟩ := by
      simp [get_current_active_user, hd]
    exact ⟨hg, by simp [read_own_info, h, hg]⟩
  · intro hd
    have hg : get_current_active_user (.user u) = .user u := by
      simp [get_current_active_user, hd]
    exact ⟨hg, by simp [read_own_info, h, hg]⟩

/-- Witness for C8: with a valid token, a disabled user gets the 400
"Inactive user" from `GET /users/me`, and an enabled user gets
`[{"owner": email}]`. -/
theorem require_active_guard_witness :
    read_own_info ⟨"server-secret", "HS256", 30⟩
        [⟨"d@x.com", "$hash$pw", true⟩]
        (.jwt ⟨some "d@x.com", 100⟩ "server-secret" "HS256") 0 =
      .exc ⟨400, "Inactive user", false⟩ ∧
    read_own_info ⟨"server-secret", "HS256", 30⟩
        [⟨"a@x.com", "$hash$pw", false⟩]
        (.jwt ⟨some "a@x.com", 100⟩ "server-secret" "HS256") 0 =
      .ok [("owner", "a@x.com")] :=
  ⟨((require_active_guard ⟨"server-secret", "HS256", 30⟩
      [⟨"d@x.com", "$hash$pw", true⟩]
      (.jwt ⟨some "d@x.com", 100⟩ "server-secret" "HS256") 0
      ⟨"d@x.com", "$hash$pw", true⟩ (by decide)).1 rfl).2,
   ((require_active_guard ⟨"server-secret", "HS256", 30⟩
      [⟨"a@x.com", "$hash$pw", false⟩]
      (.jwt ⟨some "a@x.com", 100⟩ "server-secret" "HS256") 0
      ⟨"a@x.com", "$hash$pw", false⟩ (by decide)).2 rfl).2⟩

/-- Claim C1 (code bug, evaluated at the failing input): a well-signed,
unexpired token whose subject `ghost@x.com` is in no stored user makes
`get_current_user` return the Python value `False` instead of raising the
401 — `get_user` returns `False`, never `None`, so the `if user is None`
guard does not fire — and `GET /users/me` then crashes subscripting that
bool (`TypeError`, an HTTP 500), not a 401. -/
theorem missing_user_not_unauthorized :
    get_current_user ⟨"server-secret", "HS256", 30⟩ []
        (.jwt ⟨some "ghost@x.com", 100⟩ "server-secret" "HS256") 0 =
      .pyFalse ∧
    read_own_info ⟨"server-secret", "HS256", 30⟩ []
        (.jwt ⟨some "ghost@x.com", 100⟩ "server-secret" "HS256") 0 =
      .serverError := by
  constructor <;> rfl

end OauthPy
